import Mathlib

/-!
Verification of the Risk Scoring & Simulation Engine of the axiom-guard
repository, shallowly embedded in Lean 4.

Conventions used throughout the embedding:
* JavaScript numbers holding integers are modelled as `ℤ` (or `ℕ` for
  counters that the code never decrements); fractional arithmetic is `ℚ`.
* Every call to the global random source is abstracted into an explicit
  parameter (a `ℚ` draw in the unit interval, or a `Fin n` for an index
  computed with floor of random times n), following the design note that
  randomness is injectable.
* `setState` updates of the React components are modelled as synchronous
  record updates on explicit state structures; each timer tick becomes a
  step function on that state, and timer cancellation becomes the
  `intervalActive` flag.
* JavaScript string helpers are re-implemented on `List Char` so that all
  definitions are executable and kernel-decidable.
-/

/-! ## Generic JavaScript helpers -/

/-- JavaScript Math.round for nonnegative values: floor of x + 0.5. -/
def jsRound (q : ℚ) : ℤ := ⌊q + 0.5⌋

/-- JavaScript Math.floor. -/
def jsFloor (q : ℚ) : ℤ := ⌊q⌋

/-- JavaScript String.prototype.toLowerCase (on the code points that occur
in this code base). -/
def lowerStr (s : String) : String := ⟨s.data.map Char.toLower⟩

/-- Boolean infix test on character lists, kernel-computable. -/
def listHasInfix (hay needle : List Char) : Bool :=
  match hay with
  | [] => needle.isEmpty
  | c :: t => needle.isPrefixOf (c :: t) || listHasInfix t needle

/-- JavaScript String.prototype.includes. -/
def strIncludes (s sub : String) : Bool := listHasInfix s.data sub.data

/-- JavaScript String.prototype.startsWith. -/
def strStartsWith (s p : String) : Bool := p.data.isPrefixOf s.data

/-- JavaScript String.prototype.split with a single-character separator. -/
def splitOnChar (sep : Char) (l : List Char) : List (List Char) :=
  match l with
  | [] => [[]]
  | c :: t =>
    let rest := splitOnChar sep t
    if c == sep then [] :: rest
    else
      match rest with
      | [] => [[c]]
      | g :: gs => (c :: g) :: gs

/-! ## Anti-phishing engine (src/services/api.ts) -/

/-- Status union of ScanResult in src/services/api.ts. -/
inductive ScanStatus
  | safe
  | warning
  | danger
deriving DecidableEq

/-- PhishingScanResult of src/services/api.ts (ScanResult with url and
threatType; blockedDomains is never produced by the local engine). -/
structure PhishingScanResult where
  url : String
  status : ScanStatus
  confidence : ℤ
  details : String
  timestamp : String
  threatType : Option String
deriving DecidableEq

/-- The fixed suspicious-keyword set of simulatePhishingScan. -/
def suspiciousPatterns : List String :=
  ["suspicious", "phishing", "scam", "xyz", "click", "free", "win"]

/-- The isSuspicious test of simulatePhishingScan: some pattern occurs in
the lowercased URL. -/
def isSuspiciousUrl (url : String) : Bool :=
  suspiciousPatterns.any fun p => strIncludes (lowerStr url) p

/-- simulatePhishingScan of src/services/api.ts; the timestamp (new Date)
is passed explicitly. -/
def simulatePhishingScan (url : String) (nowIso : String) : PhishingScanResult :=
  let isSuspicious := isSuspiciousUrl url
  let isHttps := strStartsWith url "https://"
  let status :=
    if isSuspicious then ScanStatus.danger
    else if isHttps = false then ScanStatus.warning
    else ScanStatus.safe
  let confidence : ℤ :=
    if isSuspicious then 92
    else if isHttps = false then 78
    else 95
  { url := url
    status := status
    confidence := confidence
    details :=
      if status = ScanStatus.safe then
        "No threats detected. This website appears to be legitimate."
      else if status = ScanStatus.warning then
        "This URL shows some suspicious patterns. Proceed with caution."
      else
        "This URL is identified as a phishing threat. Do not proceed."
    timestamp := nowIso
    threatType := if status ≠ ScanStatus.safe then some "Phishing attempt" else none }

/-- phishingApi.scanUrl of src/services/api.ts: the remote call is
modelled as an `Except` value (ok on HTTP success, error when the fetch
throws or the response is not ok); the catch branch falls back to the
local simulation. -/
def scanUrl (remote : Except String PhishingScanResult) (url : String)
    (nowIso : String) : PhishingScanResult :=
  match remote with
  | Except.ok r => r
  | Except.error _ => simulatePhishingScan url nowIso

/-! ## Deepfake scanner (src/pages/DeepfakeScanner.tsx, analyzeImage) -/

/-- Result union of AnalysisResult in DeepfakeScanner.tsx. -/
inductive ImageVerdict
  | authentic
  | manipulated
  | suspicious
deriving DecidableEq

/-- riskLevel union of AnalysisResult in DeepfakeScanner.tsx. -/
inductive RiskLevel
  | low
  | medium
  | high
  | critical
deriving DecidableEq

/-- DetectionDetails interface of DeepfakeScanner.tsx. -/
structure DetectionDetail where
  category : String
  finding : String
  confidence : ℚ
deriving DecidableEq

/-- AnalysisResult interface of DeepfakeScanner.tsx. -/
structure AnalysisResult where
  result : ImageVerdict
  overallConfidence : ℚ
  accuracy : ℚ
  precision : ℚ
  recallScore : ℚ
  f1Score : ℚ
  reasons : List String
  detectionDetails : List DetectionDetail
  preventionSteps : List String
  riskLevel : RiskLevel
deriving DecidableEq

/-- One value per Math.random() call inside analyzeImage: the seven
detection-layer threshold draws, the per-detail confidence jitters, the
two authenticity-marker jitters, and the jitters of the final metrics.
Each models a draw from the unit interval. -/
structure ImageDraws where
  colorDraw : ℚ
  edgeDraw : ℚ
  noiseDraw : ℚ
  symmetryDraw : ℚ
  artifactDraw : ℚ
  eyeDraw : ℚ
  bgDraw : ℚ
  colorConf : ℚ
  edgeConf : ℚ
  noiseConf : ℚ
  symmetryConf : ℚ
  artifactConf : ℚ
  eyeConf : ℚ
  bgConf : ℚ
  authConf1 : ℚ
  authConf2 : ℚ
  overallJitter : ℚ
  accJitter : ℚ
  precJitter : ℚ
  recJitter : ℚ
deriving DecidableEq

/-- The filename keyword list of the filename pattern analysis. -/
def aiPatterns : List String :=
  ["generated", "ai", "fake", "synthetic", "deepfake", "gan", "stable", "midjourney", "dalle"]

/-- fileName.split with separator dot, pop, toLowerCase. -/
def fileExtension (fileName : String) : Option String :=
  ((splitOnChar '.' fileName.data).getLast?).map fun l => lowerStr ⟨l⟩

/-- Some AI-related keyword occurs in the lowercased filename. -/
def hasAiPattern (fileName : String) : Bool :=
  aiPatterns.any fun p => strIncludes (lowerStr fileName) p

/-- The manipulationScore accumulator of analyzeImage: the metadata,
filename, and seven detection-layer contributions, in source order. -/
def manipulationScore (fileName : String) (d : ImageDraws) : ℤ :=
  (if fileExtension fileName = some "png" then 5 else 0) +
  (if hasAiPattern fileName = true then 35 else 0) +
  (if d.colorDraw > 0.7 then 15 else 0) +
  (if d.edgeDraw > 0.65 then 12 else 0) +
  (if d.noiseDraw > 0.6 then 18 else 0) +
  (if d.symmetryDraw > 0.75 then 10 else 0) +
  (if d.artifactDraw > 0.55 then 20 else 0) +
  (if d.eyeDraw > 0.7 then 15 else 0) +
  (if d.bgDraw > 0.6 then 8 else 0)

/-- The detectionDetails list pushed by analyzeImage, in source order,
including the authenticity markers appended when the score stays below
25. -/
def imageDetectionDetails (fileName : String) (d : ImageDraws) : List DetectionDetail :=
  (if fileExtension fileName = some "png" then
    [⟨"Metadata Analysis", "PNG format detected - commonly used for AI-generated images", 65⟩]
  else []) ++
  (if hasAiPattern fileName = true then
    [⟨"Filename Analysis", "AI-related keywords detected in filename", 88⟩]
  else []) ++
  (if d.colorDraw > 0.7 then
    [⟨"Color Analysis", "Non-natural color gradients in facial regions", 72 + d.colorConf * 15⟩]
  else []) ++
  (if d.edgeDraw > 0.65 then
    [⟨"Edge Detection", "Blurred or artificial edges detected around key facial landmarks",
      68 + d.edgeConf * 20⟩]
  else []) ++
  (if d.noiseDraw > 0.6 then
    [⟨"Noise Analysis", "GAN-typical noise fingerprints detected", 75 + d.noiseConf * 18⟩]
  else []) ++
  (if d.symmetryDraw > 0.75 then
    [⟨"Symmetry Analysis",
      "Face shows mathematically perfect symmetry (rare in natural photos)",
      70 + d.symmetryConf * 15⟩]
  else []) ++
  (if d.artifactDraw > 0.55 then
    [⟨"Artifact Detection", "Compression artifacts inconsistent with claimed source",
      78 + d.artifactConf * 15⟩]
  else []) ++
  (if d.eyeDraw > 0.7 then
    [⟨"Eye Analysis", "Light reflections in eyes don\x27t match expected patterns",
      82 + d.eyeConf * 12⟩]
  else []) ++
  (if d.bgDraw > 0.6 then
    [⟨"Background Analysis", "Background shows subtle blending artifacts", 65 + d.bgConf * 20⟩]
  else []) ++
  (if manipulationScore fileName d < 25 then
    [⟨"Authenticity Markers", "Natural lighting patterns detected", 85 + d.authConf1 * 10⟩,
     ⟨"Sensor Analysis", "Image noise consistent with camera sensor patterns",
      88 + d.authConf2 * 8⟩]
  else [])

/-- The reasons list pushed by analyzeImage, in source order. -/
def imageReasons (fileName : String) (d : ImageDraws) : List String :=
  (if hasAiPattern fileName = true then
    ["Filename contains AI-generation related keywords"] else []) ++
  (if d.colorDraw > 0.7 then ["Unusual color distribution patterns detected"] else []) ++
  (if d.edgeDraw > 0.65 then ["Inconsistent edge patterns around facial features"] else []) ++
  (if d.noiseDraw > 0.6 then
    ["Artificial noise patterns inconsistent with camera sensors"] else []) ++
  (if d.symmetryDraw > 0.75 then ["Unnatural facial symmetry detected"] else []) ++
  (if d.artifactDraw > 0.55 then ["Digital artifacts found in high-frequency regions"] else []) ++
  (if d.eyeDraw > 0.7 then ["Eye reflections show inconsistencies"] else []) ++
  (if manipulationScore fileName d < 25 then
    ["Natural micro-expressions detected in facial analysis",
     "Consistent lighting and shadow patterns"] else [])

/-- The result branch of analyzeImage on the accumulated score. -/
def imageVerdictOf (s : ℤ) : ImageVerdict :=
  if s < 25 then ImageVerdict.authentic
  else if s < 50 then ImageVerdict.suspicious
  else ImageVerdict.manipulated

/-- The riskLevel branch of analyzeImage on the accumulated score; note
the strict comparison score greater than 75 for critical. -/
def imageRiskOf (s : ℤ) : RiskLevel :=
  if s < 25 then RiskLevel.low
  else if s < 50 then RiskLevel.medium
  else if s > 75 then RiskLevel.critical
  else RiskLevel.high

/-- The preventionSteps branch of analyzeImage on the accumulated score. -/
def preventionStepsOf (s : ℤ) : List String :=
  if s < 25 then
    ["Continue to verify images from unknown sources",
     "Use reverse image search to confirm origin",
     "Check EXIF metadata when available",
     "Be cautious of images that seem too perfect"]
  else if s < 50 then
    ["Do not share this image without verification",
     "Use multiple deepfake detection tools for confirmation",
     "Check the original source of the image",
     "Look for the original unedited version online",
     "Report suspicious content to platform moderators",
     "Contact the depicted person for confirmation if possible"]
  else
    ["⚠️ Do NOT share this image - it may spread misinformation",
     "Report this content to the platform immediately",
     "Document the source URL for potential legal action",
     "Warn others who may have received this image",
     "If this depicts you, consider contacting authorities",
     "Use this evidence to educate others about deepfakes",
     "Consider consulting with a digital forensics expert",
     "Block and report the source account"]

/-- analyzeImage of DeepfakeScanner.tsx (the image payload itself is
never inspected by the source, only the file name and the random
draws). -/
def analyzeImage (fileName : String) (d : ImageDraws) : AnalysisResult :=
  let s := manipulationScore fileName d
  let reasons := imageReasons fileName d
  let precision := 94 + d.precJitter * 5
  let recallScore := 92 + d.recJitter * 7
  { result := imageVerdictOf s
    overallConfidence := min 95 (60 + (s : ℚ) * 0.4 + d.overallJitter * 10)
    accuracy := 96 + d.accJitter * 3
    precision := precision
    recallScore := recallScore
    f1Score := (2 * precision * recallScore) / (precision + recallScore)
    reasons := if reasons.length > 0 then reasons
      else ["Image passes all authenticity checks"]
    detectionDetails := imageDetectionDetails fileName d
    preventionSteps := preventionStepsOf s
    riskLevel := imageRiskOf s }

/-- Draws that fire only the color and artifact layers, used with the
file name ai.png to reach a manipulation score of exactly 75. -/
def drawsScore75 : ImageDraws :=
  { colorDraw := 0.8, edgeDraw := 0, noiseDraw := 0, symmetryDraw := 0,
    artifactDraw := 0.6, eyeDraw := 0, bgDraw := 0,
    colorConf := 0, edgeConf := 0, noiseConf := 0, symmetryConf := 0,
    artifactConf := 0, eyeConf := 0, bgConf := 0,
    authConf1 := 0, authConf2 := 0,
    overallJitter := 0, accJitter := 0, precJitter := 0, recJitter := 0 }

/-- All-zero draws: no detection layer fires. -/
def zeroDraws : ImageDraws :=
  { colorDraw := 0, edgeDraw := 0, noiseDraw := 0, symmetryDraw := 0,
    artifactDraw := 0, eyeDraw := 0, bgDraw := 0,
    colorConf := 0, edgeConf := 0, noiseConf := 0, symmetryConf := 0,
    artifactConf := 0, eyeConf := 0, bgConf := 0,
    authConf1 := 0, authConf2 := 0,
    overallJitter := 0, accJitter := 0, precJitter := 0, recJitter := 0 }

/-! ## Threat monitor (src/pages/AntiRansomware.tsx, monitor useEffect,
and generateRandomThreat of src/services/api.ts) -/

/-- Severity union of ThreatEvent in src/services/api.ts. -/
inductive ThreatLevel
  | info
  | warning
  | danger
deriving DecidableEq

/-- ThreatEvent interface of src/services/api.ts. -/
structure ThreatEvent where
  id : String
  name : String
  level : ThreatLevel
  time : String
  timestamp : ℤ
  resolved : Bool
  details : Option String
deriving DecidableEq

/-- The fixed catalog of (name, severity) pairs of generateRandomThreat. -/
def threatCatalog : List (String × ThreatLevel) :=
  [("Suspicious process detected", ThreatLevel.warning),
   ("Unauthorized file encryption attempt", ThreatLevel.danger),
   ("Unknown application access blocked", ThreatLevel.warning),
   ("Potential ransomware behavior detected", ThreatLevel.danger),
   ("File system anomaly detected", ThreatLevel.info),
   ("Registry modification blocked", ThreatLevel.warning)]

/-- generateRandomThreat of src/services/api.ts; the uniform catalog
index (floor of random times 6) and Date.now() are passed explicitly. -/
def generateRandomThreat (idx : Fin 6) (nowMs : ℤ) : ThreatEvent :=
  let threat := threatCatalog.getD idx.val ("Suspicious process detected", ThreatLevel.warning)
  { id := "threat_" ++ toString nowMs
    name := threat.1
    level := threat.2
    time := "Just now"
    timestamp := nowMs
    resolved := false
    details := none }

/-- The monitorStats React state of AntiRansomware.tsx. -/
structure MonitorStats where
  filesMonitored : ℤ
  threatsBlocked : ℤ
  lastScan : String
deriving DecidableEq

/-- The monitor-tab state touched by one monitoring tick. -/
structure MonitorState where
  threats : List ThreatEvent
  monitorStats : MonitorStats
deriving DecidableEq

/-- One tick of the real-time monitoring interval of AntiRansomware.tsx:
with probability 0.2 (fireDraw below 0.2) a new threat is generated,
prepended to the list truncated to 20 entries, and threatsBlocked is
incremented; otherwise filesMonitored advances by floor of random times
3. -/
def monitorTick (s : MonitorState) (fireDraw : ℚ) (idx : Fin 6) (filesDraw : Fin 3)
    (nowMs : ℤ) : MonitorState :=
  if fireDraw < 0.2 then
    let newThreat := generateRandomThreat idx nowMs
    { threats := (newThreat :: s.threats).take 20
      monitorStats := { s.monitorStats with
        threatsBlocked := s.monitorStats.threatsBlocked + 1
        lastScan := "Just now" } }
  else
    { s with monitorStats := { s.monitorStats with
        filesMonitored := s.monitorStats.filesMonitored + (filesDraw.val : ℤ)
        lastScan := "Just now" } }

/-- The initial monitorStats of AntiRansomware.tsx. -/
def initialMonitorStats : MonitorStats :=
  { filesMonitored := 1284, threatsBlocked := 12, lastScan := "2m ago" }

/-! ## Integrity check (src/pages/AntiRansomware.tsx,
handleIntegrityCheck) -/

/-- Status union of IntegrityResult in src/services/api.ts. -/
inductive IntegrityStatus
  | verified
  | modified
  | corrupted
deriving DecidableEq

/-- IntegrityResult interface of src/services/api.ts. -/
structure IntegrityResult where
  fileId : String
  fileName : String
  status : IntegrityStatus
  originalHash : String
  currentHash : String
  lastChecked : String
deriving DecidableEq

/-- The record synthesized inside the handleIntegrityCheck interval when
a discovery fires: the status is drawn from a five-element array with
four verified entries and one modified entry; originalHash is a fresh
random hash; currentHash is a fresh random hash when modified, and
otherwise the originalHash of the previously discovered record, falling
back to a fresh random hash when there is no previous record or its
originalHash is falsy. The three potential generateRandomHash results
and the two Date values are passed explicitly. -/
def mkIntegrityRecord (results : List IntegrityResult) (statusIdx : Fin 5)
    (extIdx : Fin 4) (origHash modHash freshHash : String) (nowMs : ℤ)
    (nowIso : String) : IntegrityResult :=
  let statuses : List IntegrityStatus :=
    [IntegrityStatus.verified, IntegrityStatus.verified, IntegrityStatus.verified,
     IntegrityStatus.verified, IntegrityStatus.modified]
  let status := statuses.getD statusIdx.val IntegrityStatus.verified
  { fileId := "file_" ++ toString nowMs ++ "_" ++ toString results.length
    fileName := "file_" ++ toString (results.length + 1) ++ "." ++
      (["pdf", "docx", "xlsx", "zip"].getD extIdx.val "pdf")
    status := status
    originalHash := origHash
    currentHash :=
      if status = IntegrityStatus.modified then modHash
      else
        match results.getLast? with
        | some prev => if prev.originalHash = "" then freshHash else prev.originalHash
        | none => freshHash
    lastChecked := nowIso }

/-- The integrity-check state touched by one interval tick: the checked
closure variable, the discovered results, the live-interval flag and the
integrityProgress React state. -/
structure IntegrityState where
  checked : ℤ
  results : List IntegrityResult
  intervalActive : Bool
  integrityProgress : ℤ
deriving DecidableEq

/-- The state at the start of handleIntegrityCheck. -/
def integrityCheckInit : IntegrityState :=
  { checked := 0, results := [], intervalActive := true, integrityProgress := 0 }

/-- One tick of the handleIntegrityCheck interval: checked advances by
floor of random times 50 plus 20, is clamped to totalFiles (clearing the
interval on the final tick), progress is recomputed, and with
probability 0.3, while fewer than 10 records are discovered, one record
is synthesized. -/
def integrityCheckTick (totalFiles : ℤ) (s : IntegrityState) (incDraw discoverDraw : ℚ)
    (statusIdx : Fin 5) (extIdx : Fin 4) (origHash modHash freshHash : String)
    (nowMs : ℤ) (nowIso : String) : IntegrityState :=
  if s.intervalActive = false then s
  else
    let checked1 := s.checked + (jsFloor (incDraw * 50) + 20)
    let clamp := totalFiles ≤ checked1
    let checked2 := if clamp then totalFiles else checked1
    let active2 := if clamp then false else true
    let progress2 := jsRound ((checked2 : ℚ) / (totalFiles : ℚ) * 100)
    let results2 :=
      if discoverDraw < 0.3 ∧ s.results.length < 10 then
        s.results ++ [mkIntegrityRecord s.results statusIdx extIdx origHash modHash
          freshHash nowMs nowIso]
      else s.results
    { checked := checked2, results := results2, intervalActive := active2,
      integrityProgress := progress2 }

/-- The integrityStats React state of AntiRansomware.tsx. -/
structure IntegrityStats where
  verifiedFiles : ℤ
  modifiedFiles : ℤ
  lastCheck : String
deriving DecidableEq

/-- The stats recomputation of the handleIntegrityCheck completion
timeout: verifiedFiles is totalFiles minus the count of discovered
modified records, and modifiedFiles is that count. -/
def completeIntegrityStats (totalFiles : ℤ) (results : List IntegrityResult) :
    IntegrityStats :=
  let modifiedCount :=
    ((results.filter fun r => decide (r.status = IntegrityStatus.modified)).length : ℤ)
  { verifiedFiles := totalFiles - modifiedCount
    modifiedFiles := modifiedCount
    lastCheck := "Just now" }

/-- States reachable by the handleIntegrityCheck interval from its
initial state, for a fixed totalFiles. -/
inductive IntegrityReach (totalFiles : ℤ) : IntegrityState → Prop
  | init : IntegrityReach totalFiles integrityCheckInit
  | tick : ∀ {s : IntegrityState} (incDraw discoverDraw : ℚ) (statusIdx : Fin 5)
      (extIdx : Fin 4) (origHash modHash freshHash : String) (nowMs : ℤ)
      (nowIso : String), IntegrityReach totalFiles s →
      IntegrityReach totalFiles (integrityCheckTick totalFiles s incDraw discoverDraw
        statusIdx extIdx origHash modHash freshHash nowMs nowIso)

/-! ## Ransomware attack simulator (src/pages/AntiRansomware.tsx,
handleStartSimulation, the simulation interval, handleStopSimulation) -/

/-- Status union of SimulationResult in src/services/api.ts: running,
completed or failed; the code has no separate stopped status. -/
inductive SimStatus
  | running
  | completed
  | failed
deriving DecidableEq

/-- SimulationResult interface of src/services/api.ts. -/
structure SimulationResult where
  id : String
  status : SimStatus
  progress : ℤ
  vulnerabilitiesFound : ℕ
  details : List String
  startTime : String
  endTime : Option String
deriving DecidableEq

/-- The fixed ordered log script of handleStartSimulation. -/
def simulationScript : List String :=
  ["🔄 Initializing sandbox environment...",
   "✅ Sandbox isolated from main system",
   "🔄 Loading ransomware signatures...",
   "✅ Loaded 1,247 known ransomware patterns",
   "🔄 Starting encryption simulation...",
   "⚠️ Simulated encryption attempt detected",
   "🛡️ Defense mechanism triggered",
   "✅ Encryption attempt blocked",
   "🔄 Testing file system monitoring...",
   "⚠️ Suspicious registry modification detected",
   "🛡️ Registry protection activated",
   "✅ Modification prevented",
   "🔄 Analyzing system vulnerabilities...",
   "📊 Generating security report...",
   "✅ Simulation complete!"]

/-- The simulator state: the simulation React state, the isSimulating
flag, the simulationLogs React state, the logIndex, progress and
vulnerabilities closure variables of the interval, and the
live-interval flag. -/
structure SimRunState where
  simulation : Option SimulationResult
  isSimulating : Bool
  simulationLogs : List String
  logIndex : ℕ
  progressVar : ℤ
  vulnerabilities : ℕ
  intervalActive : Bool
deriving DecidableEq

/-- handleStartSimulation of AntiRansomware.tsx: resets logs and
counters, installs a fresh running SimulationResult and starts the
interval. The generated id and ISO start time are passed explicitly. -/
def handleStartSimulation (id startTime : String) : SimRunState :=
  { simulation := some
      { id := id
        status := SimStatus.running
        progress := 0
        vulnerabilitiesFound := 0
        details := []
        startTime := startTime
        endTime := none }
    isSimulating := true
    simulationLogs := []
    logIndex := 0
    progressVar := 0
    vulnerabilities := 0
    intervalActive := true }

/-- One firing of the simulation interval of handleStartSimulation: if
lines remain, the next script line is appended, progress becomes round
of emitted over total times 100, and when the emitted line carries the
warning tag the vulnerability counter increments with probability one
half (vulnDraw below 0.5); past the end of the script the interval is
cleared and the run is marked completed at progress 100 with an end
time. A cleared interval never fires, modelled by the identity on
inactive states. -/
def simulationTick (s : SimRunState) (vulnDraw : ℚ) (nowIso : String) : SimRunState :=
  if s.intervalActive = false then s
  else if h : s.logIndex < simulationScript.length then
    let line := simulationScript.get ⟨s.logIndex, h⟩
    let newIndex := s.logIndex + 1
    let newProgress := jsRound ((newIndex : ℚ) / (simulationScript.length : ℚ) * 100)
    let newVulns :=
      if strIncludes line "⚠️" = true ∧ vulnDraw < 0.5 then s.vulnerabilities + 1
      else s.vulnerabilities
    { simulation := s.simulation.map fun p =>
        { p with progress := newProgress, vulnerabilitiesFound := newVulns }
      isSimulating := s.isSimulating
      simulationLogs := s.simulationLogs ++ [line]
      logIndex := newIndex
      progressVar := newProgress
      vulnerabilities := newVulns
      intervalActive := s.intervalActive }
  else
    { s with
      intervalActive := false
      isSimulating := false
      simulation := s.simulation.map fun p =>
        { p with status := SimStatus.completed, progress := 100, endTime := some nowIso } }

/-- handleStopSimulation of AntiRansomware.tsx: clears the interval,
ends isSimulating, and sets the run status to completed, leaving
progress and logs untouched. -/
def handleStopSimulation (s : SimRunState) : SimRunState :=
  { s with
    intervalActive := false
    isSimulating := false
    simulation := s.simulation.map fun p => { p with status := SimStatus.completed } }

/-- The progress of the run object of a simulator state (0 when no run
exists). -/
def progressOf (s : SimRunState) : ℤ :=
  (s.simulation.map SimulationResult.progress).getD 0

/-- States reachable by starting a run and then ticking or stopping. -/
inductive SimReach : SimRunState → Prop
  | start : ∀ id startTime : String, SimReach (handleStartSimulation id startTime)
  | tick : ∀ {s : SimRunState} (vulnDraw : ℚ) (nowIso : String), SimReach s →
      SimReach (simulationTick s vulnDraw nowIso)
  | stop : ∀ {s : SimRunState}, SimReach s → SimReach (handleStopSimulation s)

/-- States reachable by starting a run and then only ticking (a run
never explicitly stopped). -/
inductive SimReachTicks : SimRunState → Prop
  | start : ∀ id startTime : String, SimReachTicks (handleStartSimulation id startTime)
  | tick : ∀ {s : SimRunState} (vulnDraw : ℚ) (nowIso : String), SimReachTicks s →
      SimReachTicks (simulationTick s vulnDraw nowIso)

/-! ## Theorems for claims C1 and C6 -/

/-- C1 counterexample: on the input ai.png with draws firing the color
and artifact layers the computed manipulation score is exactly 75, and
the code assigns risk high, not critical, refuting the claim that every
score of at least 75 gets risk critical (the source uses a strict
comparison). -/
theorem claim1_cex :
    manipulationScore "ai.png" drawsScore75 = 75 ∧
    (analyzeImage "ai.png" drawsScore75).result = ImageVerdict.manipulated ∧
    (analyzeImage "ai.png" drawsScore75).riskLevel = RiskLevel.high ∧
    RiskLevel.high ≠ RiskLevel.critical := by
  have hext : fileExtension "ai.png" = some "png" := by decide
  have hai : hasAiPattern "ai.png" = true := by decide
  have hscore : manipulationScore "ai.png" drawsScore75 = 75 := by
    rw [manipulationScore, hext, hai]
    norm_num [drawsScore75]
  refine ⟨hscore, ?_, ?_, by decide⟩
  · show imageVerdictOf (manipulationScore "ai.png" drawsScore75) = ImageVerdict.manipulated
    rw [hscore]; decide
  · show imageRiskOf (manipulationScore "ai.png" drawsScore75) = RiskLevel.high
    rw [hscore]; decide

/-- C1 (amended): score below 25 classifies authentic with risk low;
score in 25 to 49 suspicious with risk medium; score at least 50
manipulated, with risk high up to and including 75 and critical strictly
above 75; the bands are exhaustive and non-overlapping. -/
theorem claim1_bands (fileName : String) (d : ImageDraws) :
    (manipulationScore fileName d < 25 →
      (analyzeImage fileName d).result = ImageVerdict.authentic ∧
      (analyzeImage fileName d).riskLevel = RiskLevel.low) ∧
    (25 ≤ manipulationScore fileName d → manipulationScore fileName d < 50 →
      (analyzeImage fileName d).result = ImageVerdict.suspicious ∧
      (analyzeImage fileName d).riskLevel = RiskLevel.medium) ∧
    (50 ≤ manipulationScore fileName d →
      (analyzeImage fileName d).result = ImageVerdict.manipulated) ∧
    (50 ≤ manipulationScore fileName d → manipulationScore fileName d ≤ 75 →
      (analyzeImage fileName d).riskLevel = RiskLevel.high) ∧
    (75 < manipulationScore fileName d →
      (analyzeImage fileName d).riskLevel = RiskLevel.critical) ∧
    (manipulationScore fileName d < 25 ∨
      (25 ≤ manipulationScore fileName d ∧ manipulationScore fileName d < 50) ∨
      50 ≤ manipulationScore fileName d) := by
  have hres : (analyzeImage fileName d).result =
      imageVerdictOf (manipulationScore fileName d) := rfl
  have hrisk : (analyzeImage fileName d).riskLevel =
      imageRiskOf (manipulationScore fileName d) := rfl
  rw [hres, hrisk]
  set s := manipulationScore fileName d with hs
  refine ⟨fun h => ⟨?_, ?_⟩, fun h1 h2 => ⟨?_, ?_⟩, fun h => ?_, fun h1 h2 => ?_,
    fun h => ?_, by omega⟩ <;>
    · simp only [imageVerdictOf, imageRiskOf]
      split_ifs <;> first | rfl | (exfalso; omega)

/-- C1 witness: on a file with no signals the score is 0, in the low
band, and the analyzer reports authentic with risk low. -/
theorem claim1_bands_witness :
    manipulationScore "photo.jpg" zeroDraws < 25 ∧
    (analyzeImage "photo.jpg" zeroDraws).result = ImageVerdict.authentic ∧
    (analyzeImage "photo.jpg" zeroDraws).riskLevel = RiskLevel.low := by
  have hscore : manipulationScore "photo.jpg" zeroDraws = 0 := by
    rw [manipulationScore,
      if_neg (by decide : ¬ fileExtension "photo.jpg" = some "png"),
      (by decide : hasAiPattern "photo.jpg" = false)]
    norm_num [zeroDraws]
  have h25 : manipulationScore "photo.jpg" zeroDraws < 25 := by omega
  exact ⟨h25, (claim1_bands "photo.jpg" zeroDraws).1 h25⟩

/-- Nonnegativity of each additive contribution. -/
theorem iteNonneg (c : Prop) [Decidable c] (k : ℤ) (hk : 0 ≤ k) :
    0 ≤ if c then k else 0 := by
  split
  · exact hk
  · exact le_refl 0

/-- C6: the accumulated manipulation score is never negative, and for any
nonnegative jitter draw the overall confidence min 95 (60 + score * 0.4 +
jitter * 10) lies in the interval from 0 to 100 (indeed at most 95). -/
theorem claim6_confidence_bounds (fileName : String) (d : ImageDraws)
    (hj : 0 ≤ d.overallJitter) :
    0 ≤ manipulationScore fileName d ∧
    0 ≤ (analyzeImage fileName d).overallConfidence ∧
    (analyzeImage fileName d).overallConfidence ≤ 95 ∧
    (analyzeImage fileName d).overallConfidence ≤ 100 := by
  have hs : 0 ≤ manipulationScore fileName d := by
    rw [manipulationScore]
    repeat refine add_nonneg ?_ (iteNonneg _ _ (by norm_num))
    exact iteNonneg _ _ (by norm_num)
  have hconf : (analyzeImage fileName d).overallConfidence =
      min 95 (60 + (manipulationScore fileName d : ℚ) * 0.4 + d.overallJitter * 10) := rfl
  have hcast : (0 : ℚ) ≤ (manipulationScore fileName d : ℚ) := by exact_mod_cast hs
  refine ⟨hs, ?_, ?_, ?_⟩
  · rw [hconf]
    refine le_min (by norm_num) ?_
    nlinarith
  · rw [hconf]; exact min_le_left _ _
  · rw [hconf]
    calc min 95 (60 + (manipulationScore fileName d : ℚ) * 0.4 + d.overallJitter * 10)
        ≤ 95 := min_le_left _ _
      _ ≤ 100 := by norm_num

/-- C6 witness: concrete bounds at the all-zero draws. -/
theorem claim6_confidence_bounds_witness :
    0 ≤ manipulationScore "photo2.jpg" zeroDraws ∧
    0 ≤ (analyzeImage "photo2.jpg" zeroDraws).overallConfidence ∧
    (analyzeImage "photo2.jpg" zeroDraws).overallConfidence ≤ 95 ∧
    (analyzeImage "photo2.jpg" zeroDraws).overallConfidence ≤ 100 :=
  claim6_confidence_bounds "photo2.jpg" zeroDraws (le_refl 0)

/-! ## Theorems for claims C8 and C9 -/

/-- C8: for every URL the local scan classifies danger iff the lowercased
URL contains a suspicious keyword; otherwise warning iff the URL does not
start with https://; otherwise safe. -/
theorem claim8_url_bands (url nowIso : String) :
    ((simulatePhishingScan url nowIso).status = ScanStatus.danger ↔
      isSuspiciousUrl url = true) ∧
    (isSuspiciousUrl url = false →
      ((simulatePhishingScan url nowIso).status = ScanStatus.warning ↔
        strStartsWith url "https://" = false)) ∧
    (isSuspiciousUrl url = false → strStartsWith url "https://" = true →
      (simulatePhishingScan url nowIso).status = ScanStatus.safe) := by
  cases hs : isSuspiciousUrl url <;>
    cases hh : strStartsWith url "https://" <;>
      simp [simulatePhishingScan, hs, hh]

/-- C8 witness: the URL http://promo-deal.net/claim contains no banned
keyword and is not https, so the classification is warning. -/
theorem claim8_url_bands_witness :
    isSuspiciousUrl "http://promo-deal.net/claim" = false ∧
    (simulatePhishingScan "http://promo-deal.net/claim" "t0").status = ScanStatus.warning :=
  ⟨by decide,
    ((claim8_url_bands "http://promo-deal.net/claim" "t0").2.1 (by decide)).mpr (by decide)⟩

/-- C9: when the remote scan call fails, scanUrl returns the local
simulation result; the failure is not propagated (the return type of the
embedded scanUrl is total, mirroring the catch-all fallback). -/
theorem claim9_remote_fallback (remote : Except String PhishingScanResult)
    (url nowIso e : String) (hfail : remote = Except.error e) :
    scanUrl remote url nowIso = simulatePhishingScan url nowIso := by
  subst hfail
  rfl

/-- C9 witness: a concrete failed remote call falls back to the local
simulation. -/
theorem claim9_remote_fallback_witness :
    scanUrl (Except.error "network unreachable") "http://a.example" "t0" =
      simulatePhishingScan "http://a.example" "t0" :=
  claim9_remote_fallback (Except.error "network unreachable") "http://a.example" "t0"
    "network unreachable" rfl

/-! ## Theorems for claims C3, C4 and C7 -/

/-- C3: evaluation of the record synthesis at the failing input. The
first discovered record of a sweep, with the status draw landing on a
verified slot, originalHash draw A3F2B1C8 and fallback currentHash draw
D7E4F9A2, has status verified while its currentHash differs from its own
originalHash: the code takes the currentHash of a verified record from
the previously discovered record (or a fresh random hash), not from the
record itself, contradicting the stated invariant that verified means
currentHash equals originalHash. -/
theorem claim3_code_eval :
    (mkIntegrityRecord [] 0 0 "A3F2B1C8" "X" "D7E4F9A2" 1 "t").status =
      IntegrityStatus.verified ∧
    (mkIntegrityRecord [] 0 0 "A3F2B1C8" "X" "D7E4F9A2" 1 "t").originalHash = "A3F2B1C8" ∧
    (mkIntegrityRecord [] 0 0 "A3F2B1C8" "X" "D7E4F9A2" 1 "t").currentHash = "D7E4F9A2" ∧
    (mkIntegrityRecord [] 0 0 "A3F2B1C8" "X" "D7E4F9A2" 1 "t").currentHash ≠
      (mkIntegrityRecord [] 0 0 "A3F2B1C8" "X" "D7E4F9A2" 1 "t").originalHash := by
  refine ⟨rfl, rfl, rfl, ?_⟩
  decide

/-- C4 counterexample: a monitoring tick that synthesizes the first
catalog entry, a warning-severity event, still increments the blocked
counter from 12 to 13, refuting the claim that only danger-severity
events increment it. -/
theorem claim4_cex :
    (generateRandomThreat 0 5).level = ThreatLevel.warning ∧
    (monitorTick { threats := [], monitorStats := initialMonitorStats } 0 0 0
      5).monitorStats.threatsBlocked = 13 ∧
    ThreatLevel.warning ≠ ThreatLevel.danger := by
  refine ⟨rfl, ?_, by decide⟩
  rw [monitorTick, if_pos (by norm_num : (0 : ℚ) < 0.2)]
  rfl

/-- C4 (amended): on every tick that synthesizes a new event (fire draw
below 0.2) the event is prepended to the log truncated to the 20 most
recent entries and the blocked counter is incremented by one regardless
of the severity of the event; a tick that synthesizes no event changes
neither the log nor the blocked counter. -/
theorem claim4_monitor_tick (s : MonitorState) (fireDraw : ℚ) (idx : Fin 6)
    (filesDraw : Fin 3) (nowMs : ℤ) :
    (fireDraw < 0.2 →
      (monitorTick s fireDraw idx filesDraw nowMs).threats =
        (generateRandomThreat idx nowMs :: s.threats).take 20 ∧
      (monitorTick s fireDraw idx filesDraw nowMs).threats.length ≤ 20 ∧
      (monitorTick s fireDraw idx filesDraw nowMs).monitorStats.threatsBlocked =
        s.monitorStats.threatsBlocked + 1) ∧
    (¬ fireDraw < 0.2 →
      (monitorTick s fireDraw idx filesDraw nowMs).threats = s.threats ∧
      (monitorTick s fireDraw idx filesDraw nowMs).monitorStats.threatsBlocked =
        s.monitorStats.threatsBlocked) := by
  constructor
  · intro h
    rw [monitorTick, if_pos h]
    exact ⟨rfl, List.length_take_le _ _, rfl⟩
  · intro h
    rw [monitorTick, if_neg h]
    exact ⟨rfl, rfl⟩

/-- C4 witness: the amended tick behavior at a concrete synthesizing
tick. -/
theorem claim4_monitor_tick_witness :
    (monitorTick { threats := [], monitorStats := initialMonitorStats } 0 1 0 9).threats =
      (generateRandomThreat 1 9 ::
        ({ threats := [], monitorStats := initialMonitorStats } : MonitorState).threats).take
        20 ∧
    (monitorTick { threats := [], monitorStats := initialMonitorStats } 0 1 0
      9).threats.length ≤ 20 ∧
    (monitorTick { threats := [], monitorStats := initialMonitorStats } 0 1 0
      9).monitorStats.threatsBlocked = initialMonitorStats.threatsBlocked + 1 :=
  (claim4_monitor_tick { threats := [], monitorStats := initialMonitorStats } 0 1 0 9).1
    (by norm_num)

/-- C7: the running checked count never exceeds totalFiles along any
reachable sweep state; a tick whose increment reaches totalFiles clamps
checked to exactly totalFiles and clears the interval; and the recomputed
completion stats always satisfy verifiedFiles plus modifiedFiles equals
totalFiles. -/
theorem claim7_sweep_bounds (totalFiles : ℤ) :
    (∀ s : IntegrityState, IntegrityReach totalFiles s → 0 ≤ totalFiles →
      s.checked ≤ totalFiles) ∧
    (∀ (s : IntegrityState) (incDraw discoverDraw : ℚ) (statusIdx : Fin 5)
      (extIdx : Fin 4) (origHash modHash freshHash : String) (nowMs : ℤ)
      (nowIso : String), s.intervalActive = true →
      totalFiles ≤ s.checked + (jsFloor (incDraw * 50) + 20) →
      (integrityCheckTick totalFiles s incDraw discoverDraw statusIdx extIdx origHash
        modHash freshHash nowMs nowIso).checked = totalFiles ∧
      (integrityCheckTick totalFiles s incDraw discoverDraw statusIdx extIdx origHash
        modHash freshHash nowMs nowIso).intervalActive = false) ∧
    (∀ results : List IntegrityResult,
      (completeIntegrityStats totalFiles results).verifiedFiles +
        (completeIntegrityStats totalFiles results).modifiedFiles = totalFiles) := by
  refine ⟨?_, ?_, ?_⟩
  · intro s hreach htot
    induction hreach with
    | init => exact htot
    | tick incDraw discoverDraw statusIdx extIdx origHash modHash freshHash nowMs nowIso
        hprev ih =>
      rw [integrityCheckTick]
      split
      · exact ih
      · simp only
        split
        · exact le_refl totalFiles
        · omega
  · intro s incDraw discoverDraw statusIdx extIdx origHash modHash freshHash nowMs nowIso
      hact hreached
    rw [integrityCheckTick, if_neg (by simp [hact])]
    simp only
    rw [if_pos hreached, if_pos hreached]
    exact ⟨rfl, rfl⟩
  · intro results
    simp only [completeIntegrityStats]
    ring

/-- C7 witness: concrete instances of all three conjuncts, at totalFiles
1284 for the invariant and the stats, and at totalFiles 30 with a half
draw (increment 45) for the clamping tick. -/
theorem claim7_sweep_bounds_witness :
    integrityCheckInit.checked ≤ 1284 ∧
    (integrityCheckTick 30 integrityCheckInit 0.5 1 0 0 "A" "B" "C" 3 "t").checked = 30 ∧
    (integrityCheckTick 30 integrityCheckInit 0.5 1 0 0 "A" "B" "C" 3 "t").intervalActive
      = false ∧
    (completeIntegrityStats 1284 []).verifiedFiles +
      (completeIntegrityStats 1284 []).modifiedFiles = 1284 := by
  have h2 := (claim7_sweep_bounds 30).2.1 integrityCheckInit 0.5 1 0 0 "A" "B" "C" 3 "t"
    rfl (by
      show (30 : ℤ) ≤ 0 + (jsFloor ((0.5 : ℚ) * 50) + 20)
      rw [show jsFloor ((0.5 : ℚ) * 50) = 25 from by
        rw [jsFloor]
        norm_num]
      norm_num)
  exact ⟨(claim7_sweep_bounds 1284).1 integrityCheckInit IntegrityReach.init (by norm_num),
    h2.1, h2.2, (claim7_sweep_bounds 1284).2.2 []⟩

/-! ## Theorems for claims C2, C5 and C10 -/

/-- Rounding zero. -/
theorem jsRound_zero : jsRound 0 = 0 := by
  rw [jsRound, show ((0 : ℚ) + 0.5) = 0.5 by norm_num, Int.floor_eq_iff]
  norm_num

/-- Rounding one hundred. -/
theorem jsRound_hundred : jsRound 100 = 100 := by
  rw [jsRound, Int.floor_eq_iff]
  norm_num

/-- Rounding is monotone. -/
theorem jsRound_mono {q r : ℚ} (h : q ≤ r) : jsRound q ≤ jsRound r :=
  Int.floor_mono (by linarith)

/-- Invariant of every reachable simulator state: the log index stays
within the script, the emitted logs are exactly the script prefix of
that length, the vulnerability counter is bounded by the number of
warning-tagged lines emitted so far, and the run object mirrors the
closure counters, its progress being the rounded emitted fraction. -/
theorem simReach_invariant (s : SimRunState) (h : SimReach s) :
    s.logIndex ≤ simulationScript.length ∧
    s.simulationLogs = simulationScript.take s.logIndex ∧
    s.vulnerabilities ≤ s.simulationLogs.countP (fun l => strIncludes l "⚠️") ∧
    ∀ p : SimulationResult, s.simulation = some p →
      p.vulnerabilitiesFound = s.vulnerabilities ∧
      p.progress = jsRound ((s.logIndex : ℚ) / (simulationScript.length : ℚ) * 100) := by
  induction h with
  | start id startTime =>
    refine ⟨by simp [handleStartSimulation], by simp [handleStartSimulation],
      by simp [handleStartSimulation], ?_⟩
    intro p hp
    simp only [handleStartSimulation, Option.some.injEq] at hp
    subst hp
    refine ⟨rfl, ?_⟩
    simp only [handleStartSimulation]
    rw [show ((0 : ℕ) : ℚ) / (simulationScript.length : ℚ) * 100 = 0 by norm_num,
      jsRound_zero]
  | @tick s vulnDraw nowIso hprev ih =>
    obtain ⟨ih1, ih2, ih3, ih4⟩ := ih
    by_cases hact : s.intervalActive = false
    · rw [simulationTick, if_pos hact]
      exact ⟨ih1, ih2, ih3, ih4⟩
    · rw [simulationTick, if_neg hact]
      by_cases hlt : s.logIndex < simulationScript.length
      · rw [dif_pos hlt]
        dsimp only
        refine ⟨by omega, ?_, ?_, ?_⟩
        · rw [ih2, List.take_succ, List.getElem?_eq_getElem hlt]
          simp [List.get_eq_getElem]
        · rw [List.countP_append]
          by_cases hfire :
              strIncludes (simulationScript.get ⟨s.logIndex, hlt⟩) "⚠️" = true ∧
                vulnDraw < 0.5
          · rw [if_pos hfire]
            have hp2 : strIncludes simulationScript[s.logIndex] "⚠️" = true := hfire.1
            have hone :
                List.countP (fun l => strIncludes l "⚠️")
                  [simulationScript.get ⟨s.logIndex, hlt⟩] = 1 := by
              simp [List.countP_cons, hp2]
            omega
          · rw [if_neg hfire]
            omega
        · intro q hq
          cases hsim : s.simulation with
          | none => rw [hsim] at hq; simp at hq
          | some p =>
            rw [hsim] at hq
            simp only [Option.map_some', Option.some.injEq] at hq
            subst hq
            exact ⟨rfl, rfl⟩
      · rw [dif_neg hlt]
        have hi : s.logIndex = simulationScript.length := le_antisymm ih1 (not_lt.mp hlt)
        dsimp only
        refine ⟨ih1, ih2, ih3, ?_⟩
        intro q hq
        cases hsim : s.simulation with
        | none => rw [hsim] at hq; simp at hq
        | some p =>
          rw [hsim] at hq
          simp only [Option.map_some', Option.some.injEq] at hq
          subst hq
          refine ⟨(ih4 p hsim).1, ?_⟩
          rw [hi, show ((simulationScript.length : ℕ) : ℚ) /
              (simulationScript.length : ℚ) * 100 = 100 by norm_num [simulationScript],
            jsRound_hundred]
  | @stop s hprev ih =>
    obtain ⟨ih1, ih2, ih3, ih4⟩ := ih
    simp only [handleStopSimulation]
    refine ⟨ih1, ih2, ih3, ?_⟩
    intro q hq
    cases hsim : s.simulation with
    | none => rw [hsim] at hq; simp at hq
    | some p =>
      rw [hsim] at hq
      simp only [Option.map_some', Option.some.injEq] at hq
      subst hq
      exact ⟨(ih4 p hsim).1, (ih4 p hsim).2⟩

/-- Status invariant of runs never explicitly stopped: while the
interval is live the run object is running; once the interval is
cleared the run object is completed at progress 100. -/
theorem simTicks_status_invariant (s : SimRunState) (h : SimReachTicks s) :
    (s.intervalActive = true → ∀ p : SimulationResult, s.simulation = some p →
      p.status = SimStatus.running) ∧
    (s.intervalActive = false → ∀ p : SimulationResult, s.simulation = some p →
      p.status = SimStatus.completed ∧ p.progress = 100) := by
  induction h with
  | start id startTime =>
    constructor
    · intro _ p hp
      simp only [handleStartSimulation, Option.some.injEq] at hp
      subst hp
      rfl
    · intro habs
      simp [handleStartSimulation] at habs
  | @tick s vulnDraw nowIso hprev ih =>
    obtain ⟨ihRun, ihDone⟩ := ih
    by_cases hact : s.intervalActive = false
    · rw [simulationTick, if_pos hact]
      exact ⟨ihRun, ihDone⟩
    · rw [simulationTick, if_neg hact]
      have hacttrue : s.intervalActive = true := by
        cases hb : s.intervalActive
        · exact absurd hb hact
        · rfl
      by_cases hlt : s.logIndex < simulationScript.length
      · rw [dif_pos hlt]
        dsimp only
        constructor
        · intro _ q hq
          cases hsim : s.simulation with
          | none => rw [hsim] at hq; simp at hq
          | some p =>
            rw [hsim] at hq
            simp only [Option.map_some', Option.some.injEq] at hq
            subst hq
            exact ihRun hacttrue p hsim
        · intro habs
          rw [hacttrue] at habs
          exact absurd habs (by simp)
      · rw [dif_neg hlt]
        dsimp only
        constructor
        · intro habs
          exact absurd habs (by simp)
        · intro _ q hq
          cases hsim : s.simulation with
          | none => rw [hsim] at hq; simp at hq
          | some p =>
            rw [hsim] at hq
            simp only [Option.map_some', Option.some.injEq] at hq
            subst hq
            exact ⟨rfl, rfl⟩

/-- C10 (implicit): in every reachable simulator state the vulnerability
counter, and the vulnerabilitiesFound field of the run object, are
bounded by the number of warning-tagged log lines emitted so far, hence
by 2, the number of warning-tagged lines of the fixed script. -/
theorem claim10_vuln_bound (s : SimRunState) (h : SimReach s) :
    s.vulnerabilities ≤ s.simulationLogs.countP (fun l => strIncludes l "⚠️") ∧
    s.vulnerabilities ≤ 2 ∧
    ∀ p : SimulationResult, s.simulation = some p →
      p.vulnerabilitiesFound ≤ s.simulationLogs.countP (fun l => strIncludes l "⚠️") ∧
      p.vulnerabilitiesFound ≤ 2 := by
  obtain ⟨ih1, ih2, ih3, ih4⟩ := simReach_invariant s h
  have htake : (simulationScript.take s.logIndex).countP (fun l => strIncludes l "⚠️") ≤
      simulationScript.countP (fun l => strIncludes l "⚠️") :=
    (List.take_sublist _ _).countP_le _
  have hscript : simulationScript.countP (fun l => strIncludes l "⚠️") = 2 := by decide
  have hbound : s.vulnerabilities ≤ 2 := by
    rw [ih2] at ih3
    omega
  refine ⟨ih3, hbound, ?_⟩
  intro p hp
  rw [(ih4 p hp).1]
  exact ⟨ih3, hbound⟩

/-- C10 witness: the bound at a concrete reachable state. -/
theorem claim10_vuln_bound_witness :
    (handleStartSimulation "sim_w10" "t0").vulnerabilities ≤ 2 :=
  (claim10_vuln_bound (handleStartSimulation "sim_w10" "t0")
    (SimReach.start "sim_w10" "t0")).2.1

/-- C5 counterexample: stopping a freshly started run marks it completed
at progress 0, so the status becomes completed although progress never
reached 100, refuting the stated equivalence between reaching progress
100 and becoming completed. -/
theorem claim5_cex :
    ((handleStopSimulation (handleStartSimulation "sim_c5" "t0")).simulation.map
      SimulationResult.status) = some SimStatus.completed ∧
    progressOf (handleStopSimulation (handleStartSimulation "sim_c5" "t0")) = 0 ∧
    (0 : ℤ) ≠ 100 :=
  ⟨rfl, rfl, by decide⟩

/-- C5 (amended): the progress of the run object is monotonically
non-decreasing under ticks from any reachable state; in a run advanced
only by ticks a completed status implies progress exactly 100; and a
tick taken with the script exhausted completes the run at progress 100.
An explicit stop can mark the run completed below progress 100 (see the
counterexample), which is the only part of the original claim that
fails. -/
theorem claim5_progress :
    (∀ s : SimRunState, SimReach s → ∀ (vulnDraw : ℚ) (nowIso : String),
      progressOf s ≤ progressOf (simulationTick s vulnDraw nowIso)) ∧
    (∀ s : SimRunState, SimReachTicks s → ∀ p : SimulationResult,
      s.simulation = some p → p.status = SimStatus.completed → p.progress = 100) ∧
    (∀ (s : SimRunState) (p : SimulationResult) (vulnDraw : ℚ) (nowIso : String),
      s.intervalActive = true → s.logIndex = simulationScript.length →
      s.simulation = some p →
      (simulationTick s vulnDraw nowIso).simulation =
        some { p with
          status := SimStatus.completed
          progress := 100
          endTime := some nowIso }) := by
  refine ⟨?_, ?_, ?_⟩
  · intro s h vulnDraw nowIso
    obtain ⟨ih1, ih2, ih3, ih4⟩ := simReach_invariant s h
    by_cases hact : s.intervalActive = false
    · rw [simulationTick, if_pos hact]
    · rw [simulationTick, if_neg hact]
      cases hsim : s.simulation with
      | none =>
        by_cases hlt : s.logIndex < simulationScript.length
        · rw [dif_pos hlt]
          simp [progressOf, hsim]
        · rw [dif_neg hlt]
          simp [progressOf, hsim]
      | some p =>
        have hprog := (ih4 p hsim).2
        have hlenpos : (0 : ℚ) < (simulationScript.length : ℚ) := by
          norm_num [simulationScript]
        by_cases hlt : s.logIndex < simulationScript.length
        · rw [dif_pos hlt]
          dsimp only
          simp only [progressOf, hsim, Option.map_some', Option.getD_some]
          rw [hprog]
          apply jsRound_mono
          have hc : ((s.logIndex : ℚ)) ≤ (((s.logIndex + 1 : ℕ)) : ℚ) := by
            push_cast
            linarith
          exact mul_le_mul_of_nonneg_right ((div_le_div_iff_of_pos_right hlenpos).mpr hc)
            (by norm_num)
        · rw [dif_neg hlt]
          simp only [progressOf, hsim, Option.map_some', Option.getD_some]
          have hi : s.logIndex = simulationScript.length := le_antisymm ih1 (not_lt.mp hlt)
          rw [hprog, hi, show ((simulationScript.length : ℕ) : ℚ) /
              (simulationScript.length : ℚ) * 100 = 100 by norm_num [simulationScript],
            jsRound_hundred]
  · intro s h p hp hcomp
    obtain ⟨hRun, hDone⟩ := simTicks_status_invariant s h
    cases hb : s.intervalActive
    · exact (hDone hb p hp).2
    · have hrun := hRun hb p hp
      rw [hcomp] at hrun
      exact absurd hrun (by decide)
  · intro s p vulnDraw nowIso hact hlen hsim
    rw [simulationTick, if_neg (by simp [hact]), dif_neg (by omega)]
    simp only [hsim, Option.map_some']

/-- C5 witness: tick monotonicity applied at a concrete reachable
state. -/
theorem claim5_progress_witness :
    progressOf (handleStartSimulation "sim_w5" "t0") ≤
      progressOf (simulationTick (handleStartSimulation "sim_w5" "t0") 1 "u") :=
  claim5_progress.1 (handleStartSimulation "sim_w5" "t0")
    (SimReach.start "sim_w5" "t0") 1 "u"

/-- C2 counterexample: stopping a running run sets its status to the
completed value; the embedded SimulationResult status type, copied from
the source union, has only running, completed and failed, so there is no
distinct stopped status to transition to, refuting the claim as
stated. -/
theorem claim2_cex :
    ((handleStopSimulation (handleStartSimulation "sim_c2" "t0")).simulation.map
      SimulationResult.status) = some SimStatus.completed :=
  rfl

/-- C2 (amended): stopping a run with a live run object marks it
completed at its current progress (only the status field changes),
leaves the emitted logs untouched, ends isSimulating and clears the
interval; and a cleared interval absorbs every later tick, so both a
stopped and a naturally completed run are terminal and never
auto-resume. -/
theorem claim2_stop_behavior (s : SimRunState) (p : SimulationResult)
    (hp : s.simulation = some p) :
    (handleStopSimulation s).simulation = some { p with status := SimStatus.completed } ∧
    (handleStopSimulation s).simulationLogs = s.simulationLogs ∧
    (handleStopSimulation s).isSimulating = false ∧
    (handleStopSimulation s).intervalActive = false ∧
    (∀ (vulnDraw : ℚ) (nowIso : String),
      simulationTick (handleStopSimulation s) vulnDraw nowIso = handleStopSimulation s) ∧
    (s.intervalActive = false → ∀ (vulnDraw : ℚ) (nowIso : String),
      simulationTick s vulnDraw nowIso = s) := by
  refine ⟨?_, rfl, rfl, rfl, ?_, ?_⟩
  · simp [handleStopSimulation, hp]
  · intro vulnDraw nowIso
    rw [simulationTick,
      if_pos (show (handleStopSimulation s).intervalActive = false from rfl)]
  · intro hact vulnDraw nowIso
    rw [simulationTick, if_pos hact]

/-- C2 witness: the amended stop behavior at a concrete running run. -/
theorem claim2_stop_behavior_witness :
    (handleStopSimulation (handleStartSimulation "sim_w2" "t0")).simulation =
      some { id := "sim_w2"
             status := SimStatus.completed
             progress := 0
             vulnerabilitiesFound := 0
             details := []
             startTime := "t0"
             endTime := none } ∧
    simulationTick (handleStopSimulation (handleStartSimulation "sim_w2" "t0")) 1 "x" =
      handleStopSimulation (handleStartSimulation "sim_w2" "t0") := by
  have h := claim2_stop_behavior (handleStartSimulation "sim_w2" "t0")
    { id := "sim_w2"
      status := SimStatus.running
      progress := 0
      vulnerabilitiesFound := 0
      details := []
      startTime := "t0"
      endTime := none } rfl
  exact ⟨h.1, h.2.2.2.2.1 1 "x"⟩
